import Mathlib

/-!
Verification of the experiment-run harness of the notebook
`mlflow_experiment_tracking.ipynb`.

The notebook orchestrates a Build → Train → Evaluate → Record pipeline for
several regression models (random forest, CatBoost, MLP, FTTransformer
variants) and logs parameters, metrics and artifacts to an MLflow tracking
store.  This file gives a shallow embedding of that harness: Python dicts
become association lists, the tracking store becomes a trace of events, the
`with mlflow.start_run()` context manager becomes an explicit
open/body/seal wrapper, and library collaborators (scaler, splitter, early
stopping, model forward pass, artifact store) are modelled from the
documented behaviour the notebook relies on.  Machine floats are modelled
by rationals; the square root taken by the RMSE metric is kept symbolic.
-/

namespace MlflowHarness

/-- A Python value as it appears in the configuration dicts of the
notebook: ints, strings, floats, lists of feature names, `None`, a 2-D
numeric array (`numerical_data`), a 1-D numeric array (`y`), and a nested
dict (`ple_tree_params`). -/
inductive Value where
  | int (n : ℤ)
  | str (s : String)
  | num (q : ℚ)
  | bool (b : Bool)
  | strList (ss : List String)
  | none_
  | table (xs : List (List ℚ))
  | col (xs : List ℚ)
  | dict (kvs : List (String × ℤ))
deriving DecidableEq, Repr

/-- A Python dict with string keys, as an association list (first binding
wins, matching dict lookup on the dicts of the notebook, which have no
duplicate keys). -/
abbrev Config := List (String × Value)

/-- Python `d[k]`: returns the bound value or raises `KeyError`. -/
def dictGet (d : Config) (k : String) : Except String Value :=
  match d.lookup k with
  | some v => Except.ok v
  | none => Except.error ("KeyError: " ++ k)

/-- A Keras layer as declared by `build_mlp`: `Dense(units, activation)`
or `Dropout(rate)`.  Units, activations and rates are stored as the raw
configuration values, as Python does at construction time. -/
inductive Layer where
  | dense (units : Value) (activation : Value)
  | dropout (rate : Value)
deriving DecidableEq, Repr

/-- The untrained Keras `Sequential` model returned by `build_mlp`. -/
structure MLPModel where
  layers : List Layer
deriving DecidableEq, Repr

/-- `build_mlp(params)` from the notebook: builds
`Sequential([Dense(params["layer1_size"], activation=params["activation"]),
Dropout(params["dropout_rate"]), Dense(params["layer2_size"],
activation=params["activation"]), Dropout(params["dropout_rate"]),
Dense(1, activation="relu")])`.  Dict accesses are performed in the order
Python evaluates them; a missing key raises `KeyError`, modelled by
`Except.error`. -/
def build_mlp (params : Config) : Except String MLPModel :=
  match dictGet params "layer1_size" with
  | Except.error e => Except.error e
  | Except.ok l1 =>
    match dictGet params "activation" with
    | Except.error e => Except.error e
    | Except.ok act =>
      match dictGet params "dropout_rate" with
      | Except.error e => Except.error e
      | Except.ok dr =>
        match dictGet params "layer2_size" with
        | Except.error e => Except.error e
        | Except.ok l2 =>
          Except.ok ⟨[Layer.dense l1 act, Layer.dropout dr,
                      Layer.dense l2 act, Layer.dropout dr,
                      Layer.dense (Value.int 1) (Value.str "relu")]⟩

/-- The keys `build_mlp` reads from its configuration dict. -/
def mlpRequiredKeys : List String :=
  ["layer1_size", "activation", "dropout_rate", "layer2_size"]

/-- Modelled from the spec: the `FTTransformerEncoder` constructor of the
`tabtransformertf` library (not part of this repository).  The spec
requires the builder to be total once all required keys are present and to
reject malformed configurations, e.g. a "periodic" numerical embedding
without a bin count.  The encoder therefore records the configuration it
was given after checking the required keys and the bin-count rule; the
"ple" embedding also bins and is subject to the same rule. -/
structure FTEncoder where
  kwargs : Config
deriving DecidableEq, Repr

/-- The keys the encoder constructor requires (modelled from the spec and
from the configuration dicts every variant of the notebook passes). -/
def ftRequiredKeys : List String :=
  ["numerical_features", "categorical_features", "numerical_embedding_type",
   "embedding_dim", "depth", "heads", "attn_dropout", "ff_dropout",
   "numerical_data"]

/-- Check that a dict binds every listed key, raising the `KeyError` of
the first missing one. -/
def requireKeys (d : Config) : List String → Except String Unit
  | [] => Except.ok ()
  | k :: ks =>
    match dictGet d k with
    | Except.error e => Except.error e
    | Except.ok _ => requireKeys d ks

/-- Modelled from the spec: constructing the encoder checks that every
required key is present and that a binning embedding type ("periodic" or
"ple") carries a bin count, failing fast with a descriptive error
otherwise. -/
def mkFTEncoder (kwargs : Config) : Except String FTEncoder :=
  match requireKeys kwargs ftRequiredKeys with
  | Except.error e => Except.error e
  | Except.ok _ =>
    match dictGet kwargs "numerical_embedding_type" with
    | Except.error e => Except.error e
    | Except.ok et =>
      if et = Value.str "periodic" ∨ et = Value.str "ple" then
        match dictGet kwargs "numerical_bins" with
        | Except.error e => Except.error e
        | Except.ok _ => Except.ok ⟨kwargs⟩
      else
        Except.ok ⟨kwargs⟩

/-- The `FTTransformer` model: an encoder plus a prediction head with an
output dimension and output activation. -/
structure FTModel where
  encoder : FTEncoder
  out_dim : ℤ
  out_activation : String
deriving DecidableEq, Repr

/-- `build_fttransformer(params_to_log, params_to_skip, out_dim=1,
out_activation="relu")` from the notebook: splats both dicts into
`FTTransformerEncoder` and wraps the encoder in an `FTTransformer` head.
The `**`-splat of two dicts concatenates their bindings (the notebook
dicts have disjoint keys). -/
def build_fttransformer (params_to_log params_to_skip : Config)
    (out_dim : ℤ := 1) (out_activation : String := "relu") :
    Except String FTModel :=
  match mkFTEncoder (params_to_log ++ params_to_skip) with
  | Except.error e => Except.error e
  | Except.ok enc => Except.ok ⟨enc, out_dim, out_activation⟩

/-- A symbolic numeric value for recorded metrics: either a rational or
the (irrational, kept symbolic) square root of a rational.  `sqrt` stands
for the square root `mean_squared_error(..., squared=False)` takes. -/
inductive RVal where
  | q (x : ℚ)
  | sqrt (x : ℚ)
deriving DecidableEq, Repr

/-- `sklearn.metrics.mean_squared_error(y_true, y_pred)`: the mean of the
squared componentwise differences. -/
def mean_squared_error (ytrue ypred : List ℚ) : ℚ :=
  ((List.zipWith (fun a b => (a - b) ^ 2) ytrue ypred).sum) / (ytrue.length : ℚ)

/-- `mean_squared_error(y_true, y_pred, squared=False)`: the root of the
mean squared error, kept symbolic. -/
def root_mean_squared_error (ytrue ypred : List ℚ) : RVal :=
  RVal.sqrt (mean_squared_error ytrue ypred)

/-- One call against the tracking store inside a run, in the order the
calls happen.  `start` is `mlflow.start_run`, `seal` is the implicit
`mlflow.end_run` the `with` block performs on exit. -/
inductive Event where
  | start (runName : String)
  | setTag (k v : String)
  | logParam (k : String) (v : Value)
  | logMetric (metricName : String) (v : RVal)
  | logArtifact (path : String)
  | seal
deriving DecidableEq, Repr

/-- `mlflow.log_params(d)` logs every binding of the dict. -/
def paramEvents (d : Config) : List Event :=
  d.map (fun kv => Event.logParam kv.1 kv.2)

/-- Errors that can escape a run body: a `KeyError` from the builder, or
an error raised by library training code. -/
inductive RunErr where
  | buildErr (msg : String)
  | trainErr (msg : String)
deriving DecidableEq, Repr

/-- The outcome of a run: the trace of tracking-store events it produced,
and either normal completion or the propagated exception. -/
abbrev RunResult := List Event × Except RunErr Unit

/-- The `with mlflow.start_run(run_name=name):` context manager: entering
opens the run record, the body produces its events and either returns or
raises, and exiting seals the record on both paths before the exception
(if any) propagates.  This is the Python guarantee that `__exit__` runs on
every exit path. -/
def withRun (runName : String) (body : RunResult) : RunResult :=
  (Event.start runName :: body.1 ++ [Event.seal], body.2)

/-- The run-record lifecycle of the spec: `NotStarted → Open → Sealed`. -/
inductive RunState where
  | notStarted
  | opened
  | sealed
deriving DecidableEq, Repr

/-- One lifecycle transition: `start` opens a not-yet-started record,
logging calls are permitted only while the record is open, `seal` closes
an open record, and everything else — in particular any logging after
`seal` — is illegal (`none`). -/
def replayStep : RunState → Event → Option RunState
  | RunState.notStarted, Event.start _ => some RunState.opened
  | RunState.opened, Event.setTag _ _ => some RunState.opened
  | RunState.opened, Event.logParam _ _ => some RunState.opened
  | RunState.opened, Event.logMetric _ _ => some RunState.opened
  | RunState.opened, Event.logArtifact _ => some RunState.opened
  | RunState.opened, Event.seal => some RunState.sealed
  | _, _ => none

/-- Replay a trace through the lifecycle state machine. -/
def replay (s : RunState) : List Event → Option RunState
  | [] => some s
  | e :: es =>
    match replayStep s e with
    | some s2 => replay s2 es
    | none => none

def isStart : Event → Bool
  | Event.start _ => true
  | _ => false

def isSeal : Event → Bool
  | Event.seal => true
  | _ => false

/-- A parameter- or metric-logging event. -/
def isLogEvt : Event → Bool
  | Event.logParam _ _ => true
  | Event.logMetric _ _ => true
  | _ => false

/-- The events that come strictly after the first `seal` of a trace. -/
def afterSeal (t : List Event) : List Event :=
  (t.dropWhile (fun e => !isSeal e)).tail

/-- A well-scoped run trace: it drives the lifecycle from `NotStarted` to
`Sealed` (so it was opened, everything was logged while open, and it ended
sealed — no run left open), it opens exactly once and seals exactly once,
and nothing is logged after the seal. -/
def WellScoped (t : List Event) : Prop :=
  replay RunState.notStarted t = some RunState.sealed ∧
  t.countP isStart = 1 ∧ t.countP isSeal = 1 ∧
  ∀ e ∈ afterSeal t, isLogEvt e = false

/-- The parameter bindings a trace records, in order. -/
def loggedParams (t : List Event) : Config :=
  t.filterMap (fun e =>
    match e with
    | Event.logParam k v => some (k, v)
    | _ => none)

/-- A feature row of the scaled table. -/
abbrev Row := List ℚ

/-- `mlp_mlflow_run` from the notebook.  Training and prediction are
library calls (`model.fit`, `model.predict`); they enter the embedding as
the parameters `trainer` (which may raise, covering training-time errors)
and `predict` (the predictions of the fitted network, `.ravel()`-ed).
The body logs the two configuration dicts and the tag, builds the MLP
(a missing key raises `KeyError` out of the body), trains it, evaluates
RMSE on the test partition and logs the metric and the model artifact; the
whole body runs inside `with mlflow.start_run(run_name=name)`. -/
def mlp_mlflow_run (runName : String) (mlp_params train_params : Config)
    (trainer : MLPModel → Except String MLPModel)
    (predict : MLPModel → List Row → List ℚ)
    (test_dataset : List Row) (y_test : List ℚ) : RunResult :=
  withRun runName
    (let pre := paramEvents mlp_params ++ paramEvents train_params ++
      [Event.setTag "model_name" "MLP"]
    match build_mlp mlp_params with
    | Except.error e => (pre, Except.error (RunErr.buildErr e))
    | Except.ok mlp =>
      match trainer mlp with
      | Except.error e => (pre, Except.error (RunErr.trainErr e))
      | Except.ok fitted =>
        let test_preds := predict fitted test_dataset
        let test_rms := root_mean_squared_error y_test test_preds
        (pre ++ [Event.logMetric "test_rmse" test_rms,
                 Event.logArtifact "tf_models"], Except.ok ()))

/-- `fttransformer_mlflow_run` from the notebook: tags the run, logs the
encoder and training parameter dicts (and never `params_to_skip`), builds
the FTTransformer, trains it, logs the test RMSE and the model artifact.
As above, library training and prediction are parameters. -/
def fttransformer_mlflow_run (runName : String)
    (encoder_params train_params params_to_skip : Config)
    (trainer : FTModel → Except String FTModel)
    (predict : FTModel → List Row → List ℚ)
    (test_dataset : List Row) (y_test : List ℚ) : RunResult :=
  withRun runName
    (let pre := Event.setTag "model_name" "FTTransformer" ::
      paramEvents encoder_params ++ paramEvents train_params
    match build_fttransformer encoder_params params_to_skip 1 "relu" with
    | Except.error e => (pre, Except.error (RunErr.buildErr e))
    | Except.ok ft =>
      match trainer ft with
      | Except.error e => (pre, Except.error (RunErr.trainErr e))
      | Except.ok fitted =>
        let test_preds := predict fitted test_dataset
        let test_rms := root_mean_squared_error y_test test_preds
        (pre ++ [Event.logMetric "test_rmse" test_rms,
                 Event.logArtifact "tf_models"], Except.ok ()))

/-- The `rf_baseline` run cell: tags the run, logs the two hyperparameters,
fits the random forest (a library call; the fitted model enters as its
prediction function `rfPredict`), and logs the test RMSE and the model. -/
def rf_baseline_run (rfPredict : List Row → List ℚ)
    (test_dataset : List Row) (y_test : List ℚ) : RunResult :=
  withRun "rf_baseline"
    (let params : Config :=
      [("n_estimators", Value.int 100), ("max_depth", Value.int 20)]
    let rf_preds := rfPredict test_dataset
    let rf_rms := root_mean_squared_error y_test rf_preds
    (Event.setTag "model_name" "RF" :: paramEvents params ++
      [Event.logMetric "test_rmse" rf_rms, Event.logArtifact "sk_models"],
     Except.ok ()))

/-- The `catboost` run cell: tags the run, fits the CatBoost model with
library defaults (no configuration is logged), and logs the test RMSE and
the model. -/
def catboost_run (catbPredict : List Row → List ℚ)
    (test_dataset : List Row) (y_test : List ℚ) : RunResult :=
  withRun "catboost"
    (let catb_preds := catbPredict test_dataset
    let catb_rms := root_mean_squared_error y_test catb_preds
    ([Event.setTag "model_name" "CatBoost",
      Event.logMetric "test_rmse" catb_rms, Event.logArtifact "cb_models"],
     Except.ok ()))

/-- The metrics a trace records, in order. -/
def loggedMetrics (t : List Event) : List (String × RVal) :=
  t.filterMap (fun e =>
    match e with
    | Event.logMetric n v => some (n, v)
    | _ => none)

/-- The test-partition size `sklearn` computes for `test_size=0.2`:
`ceil(0.2 * n) = ceil(n / 5)`. -/
def nTestOfTotal (n : ℕ) : ℕ := (n + 4) / 5

/-- Modelled from the spec: `sklearn.model_selection.train_test_split`
with `test_size=0.2` (an external library call).  It draws a random
permutation of the rows, takes the first `ceil(0.2 * n)` rows as the test
partition and the remaining rows as the train partition; the randomness
enters the embedding as the already-shuffled copy of the input table.
Returns `(train, test)` in the order the notebook destructures. -/
def train_test_split (shuffled : List α) : List α × List α :=
  (shuffled.drop (nTestOfTotal shuffled.length),
   shuffled.take (nTestOfTotal shuffled.length))

/-- The two chained 80/20 splits of the notebook: the outer split of the
full table into `train_data`/`test_data`, then the inner split of
`train_data` into `X_train`/`X_val`.  `shuffle1` is the shuffled full
table and `shuffle2` the shuffled `train_data` (constrained to be
permutations in the theorems).  Returns `(X_train, X_val, test_data)`. -/
def prepareSplits (shuffle1 shuffle2 : List α) : List α × List α × List α :=
  let outer := train_test_split shuffle1
  let inner := train_test_split shuffle2
  (inner.1, inner.2, outer.2)

/-- The fitted statistics of a `StandardScaler` for one feature column:
the mean and the spread statistic.  The library stores the standard
deviation; its square, the variance, is kept here since the root of a
rational is irrational, and the transform divides by the stored spread
either way. -/
structure Scaler where
  mean : ℚ
  scale : ℚ
deriving DecidableEq, Repr

def listMean (xs : List ℚ) : ℚ := xs.sum / (xs.length : ℚ)

def listVar (xs : List ℚ) : ℚ :=
  ((xs.map (fun x => (x - listMean xs) ^ 2)).sum) / (xs.length : ℚ)

/-- Modelled from the spec: `StandardScaler.fit` — scaling statistics are
computed from the rows the scaler is fitted on and from nothing else. -/
def scalerFit (xs : List ℚ) : Scaler := ⟨listMean xs, listVar xs⟩

/-- `StandardScaler.transform` on one entry: centre by the fitted mean and
divide by the fitted spread; a pure function of the fitted statistics. -/
def scalerTransform (sc : Scaler) (x : ℚ) : ℚ := (x - sc.mean) / sc.scale

/-- The result of the scaling cell on one numeric feature column. -/
structure ScaledColumns where
  train : List ℚ
  val : List ℚ
  test : List ℚ
  sc : Scaler
deriving DecidableEq, Repr

/-- The scaling cell of the notebook, per numeric feature column:
`sc.fit_transform(X_train)`, then `sc.transform(X_val)` and
`sc.transform(test_data)` with the same fitted scaler. -/
def scalingCell (x_train x_val test_data : List ℚ) : ScaledColumns :=
  let sc := scalerFit x_train
  ⟨x_train.map (scalerTransform sc), x_val.map (scalerTransform sc),
   test_data.map (scalerTransform sc), sc⟩

/-- Does candidate weights `w` improve on the best seen so far under the
monitored metric `μ` (mode `min`, `min_delta = 0`: strict decrease)?  With
no best yet, anything improves. -/
def improvesOn (μ : W → ℚ) (w : W) : Option W → Bool
  | none => true
  | some b => decide (μ w < μ b)

/-- Modelled from the spec: the Keras `EarlyStopping` loop (external
library) that `train_mlp` and `train_model` configure with a monitored
validation metric, mode `min`, a `patience`, and
`restore_best_weights=True`.  One epoch of training yields the next
element of `ws` (the weights at the end of that epoch); `μ` reads the
monitored validation metric off the weights.  State: epochs run so far
`e`, best weights seen `best`, epochs since the last improvement `wait`.
Training stops once `wait` reaches `patience`, or when the epoch budget
(the length of `ws`) is exhausted; either way the best-seen weights are
what remains. -/
def esGo (μ : W → ℚ) (patience : ℕ) :
    List W → Option W → ℕ → ℕ → ℕ × Option W
  | [], best, _, e => (e, best)
  | w :: ws, best, wait, e =>
    if improvesOn μ w best then esGo μ patience ws (some w) 0 (e + 1)
    else if patience ≤ wait + 1 then (e + 1, best)
    else esGo μ patience ws best (wait + 1) (e + 1)

/-- Run a full early-stopped training: returns how many epochs ran and the
restored best weights. -/
def fitEarlyStopping (μ : W → ℚ) (patience : ℕ) (ws : List W) :
    ℕ × Option W :=
  esGo μ patience ws none 0 0

/-- Fold one candidate into a best-so-far under `μ`, keeping the earlier
one on ties (as strict-improvement does). -/
def pickBetter (μ : W → ℚ) (b : Option W) (w : W) : Option W :=
  match b with
  | none => some w
  | some b0 => if μ w < μ b0 then some w else some b0

/-- The best element of a list under `μ` given a starting best. -/
def obestBy (μ : W → ℚ) : Option W → List W → Option W
  | b, [] => b
  | b, w :: ws => obestBy μ (pickBetter μ b w) ws

/-- `relu`, the activation of the final output layer of both networks. -/
def relu (x : ℚ) : ℚ := max x 0

/-- Apply a Keras activation given by its configuration value; only the
`relu` the output layers fix matters here, anything else is kept as an
uninterpreted (identity) activation. -/
def applyActivation (a : Value) (z : ℚ) : ℚ :=
  if a = Value.str "relu" then relu z else z

def dot (w x : List ℚ) : ℚ := (List.zipWith (· * ·) w x).sum

/-- The inference-time forward pass of a `Dense` layer with weight rows
`w`, biases `b` and activation `a`. -/
def denseForward (a : Value) (w : List (List ℚ)) (b : List ℚ)
    (x : List ℚ) : List ℚ :=
  (w.zip b).map (fun wb => applyActivation a (dot wb.1 x + wb.2))

/-- The inference-time forward pass of the `Sequential` model `build_mlp`
declares: `Dense` layers consume one (weights, biases) pair each and
`Dropout` is the identity at inference. -/
def forwardLayers :
    List Layer → List (List (List ℚ) × List ℚ) → List ℚ → List ℚ
  | [], _, x => x
  | Layer.dropout _ :: ls, ws, x => forwardLayers ls ws x
  | Layer.dense _ _ :: _, [], x => x
  | Layer.dense _ a :: ls, wb :: ws, x =>
    forwardLayers ls ws (denseForward a wb.1 wb.2 x)

/-- Modelled from the spec: the prediction head the `FTTransformer`
wrapper (external library) adds on top of the encoder — a linear head
over the encoder output with the configured output activation. -/
def ftPredictOne (m : FTModel) (encOut : List ℚ) (w : List ℚ) (b : ℚ) :
    ℚ :=
  applyActivation (Value.str m.out_activation) (dot w encOut + b)

/-- The numeric feature names of the California housing table. -/
def NUMERIC_FEATURES : List String :=
  ["MedInc", "HouseAge", "AveRooms", "AveBedrms", "Population", "AveOccup",
   "Longitude", "Latitude"]

/-- The `mlp_params` dict of the first MLP run cell of the notebook. -/
def mlp_params_src : Config :=
  [("layer1_size", Value.int 512), ("layer2_size", Value.int 128),
   ("layer3_size", Value.int 64), ("dropout_rate", Value.num (3 / 10)),
   ("activation", Value.str "relu")]

/-- The `train_params` dict of the first MLP run cell of the notebook. -/
def train_params_src : Config :=
  [("learning_rate", Value.num (8 / 1000)),
   ("weight_decay", Value.num (1 / 100000)),
   ("early_stop_patience", Value.int 10),
   ("num_epochs", Value.int 1000)]

/-- The `linear_embeddings_params` dict of the notebook. -/
def linear_embeddings_params : Config :=
  [("numerical_features", Value.strList NUMERIC_FEATURES),
   ("categorical_features", Value.strList []),
   ("numerical_embedding_type", Value.str "linear"),
   ("embedding_dim", Value.int 64), ("depth", Value.int 3),
   ("heads", Value.int 6), ("attn_dropout", Value.num (3 / 10)),
   ("ff_dropout", Value.num (3 / 10)),
   ("explainable", Value.bool true)]

/-- The `params_to_skip` dict of the notebook: the build-only raw arrays
(`numerical_data` is `X_train[NUMERIC_FEATURES].values`, `y` is
`X_train[LABEL].values`). -/
def params_to_skip_src (numerical_data : List (List ℚ)) (yv : List ℚ) :
    Config :=
  [("numerical_data", Value.table numerical_data),
   ("categorical_data", Value.none_), ("y", Value.col yv)]

/-- A fitted MLP as the artifact store has to persist it: the hidden
activation of the architecture plus the (weights, biases) pair of each of
the three `Dense` layers `build_mlp` declares. -/
structure TrainedMLP where
  hiddenAct : String
  w1 : List (List ℚ) × List ℚ
  w2 : List (List ℚ) × List ℚ
  w3 : List (List ℚ) × List ℚ
deriving DecidableEq, Repr

/-- Prediction of a fitted MLP on one feature row, through the
architecture of `build_mlp` (dropout is the identity at inference and the
output layer activation is `relu`). -/
def trainedPredictOne (tm : TrainedMLP) (x : Row) : List ℚ :=
  let h1 := denseForward (Value.str tm.hiddenAct) tm.w1.1 tm.w1.2 x
  let h2 := denseForward (Value.str tm.hiddenAct) tm.w2.1 tm.w2.2 h1
  denseForward (Value.str "relu") tm.w3.1 tm.w3.2 h2

/-- `model.predict` over a whole input partition. -/
def trainedPredict (tm : TrainedMLP) (part : List Row) : List (List ℚ) :=
  part.map (trainedPredictOne tm)

/-- A token of the serialized artifact: a length, a number, or a name. -/
inductive Tok where
  | nat (n : ℕ)
  | num (q : ℚ)
  | str (s : String)
deriving DecidableEq, Repr

def encVec (v : List ℚ) : List Tok := Tok.nat v.length :: v.map Tok.num

def decNums : ℕ → List Tok → Option (List ℚ × List Tok)
  | 0, ts => some ([], ts)
  | n + 1, Tok.num q :: ts =>
    (decNums n ts).map (fun p => (q :: p.1, p.2))
  | _ + 1, _ => none

def decVec : List Tok → Option (List ℚ × List Tok)
  | Tok.nat n :: ts => decNums n ts
  | _ => none

def encMat (m : List (List ℚ)) : List Tok :=
  Tok.nat m.length :: (m.map encVec).flatten

def decRows : ℕ → List Tok → Option (List (List ℚ) × List Tok)
  | 0, ts => some ([], ts)
  | n + 1, ts =>
    match decVec ts with
    | none => none
    | some (v, ts2) =>
      match decRows n ts2 with
      | none => none
      | some (vs, ts3) => some (v :: vs, ts3)

def decMat : List Tok → Option (List (List ℚ) × List Tok)
  | Tok.nat n :: ts => decRows n ts
  | _ => none

def encDense (wb : List (List ℚ) × List ℚ) : List Tok :=
  encMat wb.1 ++ encVec wb.2

def decDense (ts : List Tok) :
    Option ((List (List ℚ) × List ℚ) × List Tok) :=
  match decMat ts with
  | none => none
  | some (w, ts1) =>
    match decVec ts1 with
    | none => none
    | some (b, ts2) => some ((w, b), ts2)

/-- Modelled from the spec: `mlflow.tensorflow.log_model` serializes the
fitted model into the artifact store (external library); the artifact is
a flat token stream recording the architecture and every weight. -/
def save_model (tm : TrainedMLP) : List Tok :=
  Tok.str tm.hiddenAct :: (encDense tm.w1 ++ encDense tm.w2 ++ encDense tm.w3)

/-- Modelled from the spec: `mlflow.tensorflow.load_model` reads the
stored artifact back into a model handle, failing on a malformed
artifact. -/
def load_model : List Tok → Option TrainedMLP
  | Tok.str a :: ts =>
    match decDense ts with
    | none => none
    | some (w1, ts1) =>
      match decDense ts1 with
      | none => none
      | some (w2, ts2) =>
        match decDense ts2 with
        | none => none
        | some (w3, ts3) =>
          if ts3 = [] then some ⟨a, w1, w2, w3⟩ else none
  | _ => none

/-! ## General lemmas about run traces -/

/-- An event that neither opens nor seals a run. -/
def isBodyEvt (e : Event) : Bool := !isStart e && !isSeal e

theorem mem_paramEvents_body {d : Config} {e : Event}
    (h : e ∈ paramEvents d) : isBodyEvt e = true := by
  rcases List.mem_map.mp h with ⟨kv, _, rfl⟩
  rfl

theorem replay_append {s s2 : RunState} {l1 : List Event}
    (h : replay s l1 = some s2) (l2 : List Event) :
    replay s (l1 ++ l2) = replay s2 l2 := by
  induction l1 generalizing s with
  | nil =>
    simp only [replay] at h
    cases h
    simp
  | cons e es ih =>
    simp only [replay] at h ⊢
    cases hstep : replayStep s e with
    | none => rw [hstep] at h; exact absurd h (by simp)
    | some s3 => rw [hstep] at h; exact ih h

theorem replayStep_opened_of_body {e : Event} (h : isBodyEvt e = true) :
    replayStep RunState.opened e = some RunState.opened := by
  cases e <;> simp_all [isBodyEvt, isStart, isSeal, replayStep]

theorem replay_opened_of_body {evs : List Event}
    (h : ∀ e ∈ evs, isBodyEvt e = true) :
    replay RunState.opened evs = some RunState.opened := by
  induction evs with
  | nil => rfl
  | cons e es ih =>
    simp only [replay, replayStep_opened_of_body (h e (by simp))]
    exact ih (fun e2 he2 => h e2 (by simp [he2]))

theorem dropWhile_body_seal {evs : List Event}
    (h : ∀ e ∈ evs, isBodyEvt e = true) :
    (evs ++ [Event.seal]).dropWhile (fun e => !isSeal e) = [Event.seal] := by
  induction evs with
  | nil => rfl
  | cons e es ih =>
    have he : isSeal e = false := by
      have := h e (by simp)
      simp [isBodyEvt] at this
      exact this.2
    simp only [List.cons_append, List.dropWhile_cons, he]
    simpa using ih (fun e2 he2 => h e2 (by simp [he2]))

theorem countP_eq_zero_of_body {p : Event → Bool} {evs : List Event}
    (h : ∀ e ∈ evs, isBodyEvt e = true)
    (hp : ∀ e, isBodyEvt e = true → p e = false) :
    evs.countP p = 0 :=
  List.countP_eq_zero.mpr (fun e he => by simp [hp e (h e he)])

/-- The central scoping lemma: wrapping any run body whose events neither
open nor seal a run in `withRun` yields a well-scoped trace — the
lifecycle runs `NotStarted → Open → Sealed`, with exactly one open and one
seal and nothing logged after the seal — regardless of whether the body
completed normally or raised. -/
theorem withRun_wellScoped (runName : String) (body : RunResult)
    (h : ∀ e ∈ body.1, isBodyEvt e = true) :
    WellScoped (withRun runName body).1 := by
  have heq : (withRun runName body).1 =
      Event.start runName :: (body.1 ++ [Event.seal]) := by
    simp [withRun]
  rw [heq]
  refine ⟨?_, ?_, ?_, ?_⟩
  · have h2 : replay RunState.opened body.1 = some RunState.opened :=
      replay_opened_of_body h
    have h3 : replay RunState.opened (body.1 ++ [Event.seal]) =
        some RunState.sealed := by
      rw [replay_append h2]
      rfl
    simpa [replay, replayStep] using h3
  · rw [List.countP_cons, List.countP_append,
      countP_eq_zero_of_body h
        (fun e he => by simp [isBodyEvt] at he; exact he.1)]
    rfl
  · rw [List.countP_cons, List.countP_append,
      countP_eq_zero_of_body h
        (fun e he => by simp [isBodyEvt] at he; exact he.2)]
    rfl
  · intro e he
    exfalso
    revert he
    unfold afterSeal
    have hs : isSeal (Event.start runName) = false := rfl
    simp only [List.dropWhile_cons, hs]
    rw [dropWhile_body_seal h]
    simp

/-- A list of events none of which opens or seals a run. -/
def BodyOnly (l : List Event) : Prop := ∀ e ∈ l, isBodyEvt e = true

theorem bodyOnly_nil : BodyOnly [] := by
  intro e he
  exact absurd he (List.not_mem_nil e)

theorem bodyOnly_cons {e : Event} {l : List Event} (he : isBodyEvt e = true)
    (h : BodyOnly l) : BodyOnly (e :: l) := by
  intro e2 he2
  rcases List.mem_cons.mp he2 with rfl | hm
  · exact he
  · exact h e2 hm

theorem bodyOnly_append {l1 l2 : List Event} (h1 : BodyOnly l1)
    (h2 : BodyOnly l2) : BodyOnly (l1 ++ l2) := by
  intro e he
  rcases List.mem_append.mp he with hm | hm
  · exact h1 e hm
  · exact h2 e hm

theorem bodyOnly_paramEvents (d : Config) : BodyOnly (paramEvents d) :=
  fun _ he => mem_paramEvents_body he

/-- Claim C1: for every scoped run session of the harness — the MLP run,
every FTTransformer run, the random-forest baseline run and the CatBoost
run — and on every exit path, in particular for every outcome of the
builder (a raised `KeyError`) and of library training (`trainer` ranges
over all outcomes, raising ones included), the produced trace is well
scoped: the run record is opened exactly once and sealed exactly once, the
lifecycle replays `NotStarted → Open → Sealed` so no run is left open, and
no parameter or metric logging event occurs after the seal. -/
theorem run_record_opened_and_sealed_once
    (runName : String)
    (mlp_params train_params encoder_params tparams params_to_skip : Config)
    (mtrainer : MLPModel → Except String MLPModel)
    (mpredict : MLPModel → List Row → List ℚ)
    (ftrainer : FTModel → Except String FTModel)
    (fpredict : FTModel → List Row → List ℚ)
    (rfPredict catbPredict : List Row → List ℚ)
    (test_dataset : List Row) (y_test : List ℚ) :
    WellScoped (mlp_mlflow_run runName mlp_params train_params mtrainer
      mpredict test_dataset y_test).1 ∧
    WellScoped (fttransformer_mlflow_run runName encoder_params tparams
      params_to_skip ftrainer fpredict test_dataset y_test).1 ∧
    WellScoped (rf_baseline_run rfPredict test_dataset y_test).1 ∧
    WellScoped (catboost_run catbPredict test_dataset y_test).1 := by
  have hpre : ∀ d1 d2 : Config, ∀ k v : String,
      BodyOnly (paramEvents d1 ++ paramEvents d2 ++ [Event.setTag k v]) :=
    fun d1 d2 k v => bodyOnly_append
      (bodyOnly_append (bodyOnly_paramEvents d1) (bodyOnly_paramEvents d2))
      (bodyOnly_cons rfl bodyOnly_nil)
  have hpre2 : ∀ d1 d2 : Config, ∀ k v : String,
      BodyOnly (Event.setTag k v :: paramEvents d1 ++ paramEvents d2) :=
    fun d1 d2 k v => bodyOnly_cons rfl
      (bodyOnly_append (bodyOnly_paramEvents d1) (bodyOnly_paramEvents d2))
  have htail : ∀ v : RVal, ∀ p : String,
      BodyOnly [Event.logMetric "test_rmse" v, Event.logArtifact p] :=
    fun v p => bodyOnly_cons rfl (bodyOnly_cons rfl bodyOnly_nil)
  refine ⟨?_, ?_, ?_, ?_⟩
  · unfold mlp_mlflow_run
    apply withRun_wellScoped
    rcases hb : build_mlp mlp_params with msg | mlp <;> simp only [hb]
    · exact hpre _ _ _ _
    · rcases ht : mtrainer mlp with msg | fitted <;> simp only [ht]
      · exact hpre _ _ _ _
      · exact bodyOnly_append (hpre _ _ _ _) (htail _ _)
  · unfold fttransformer_mlflow_run
    apply withRun_wellScoped
    rcases hb : build_fttransformer encoder_params params_to_skip 1 "relu"
      with msg | ft <;> simp only [hb]
    · exact hpre2 _ _ _ _
    · rcases ht : ftrainer ft with msg | fitted <;> simp only [ht]
      · exact hpre2 _ _ _ _
      · exact bodyOnly_cons rfl (bodyOnly_append
          (bodyOnly_append (bodyOnly_paramEvents _) (bodyOnly_paramEvents _))
          (htail _ _))
  · unfold rf_baseline_run
    apply withRun_wellScoped
    exact bodyOnly_cons rfl (bodyOnly_append (bodyOnly_paramEvents _)
      (htail _ _))
  · unfold catboost_run
    apply withRun_wellScoped
    exact bodyOnly_cons rfl (bodyOnly_cons rfl (bodyOnly_cons rfl bodyOnly_nil))

/-- Claim C2: the fitted scaler of the scaling cell is exactly the scaler
fitted on the train partition, so its parameters are invariant to the
content of the validation and test partitions, and the very same transform
(a pure function of those fitted parameters) is applied unchanged to the
train, validation and test partitions. -/
theorem scaler_fit_train_only (x_train x_val x_val2 test_data test2 : List ℚ) :
    (scalingCell x_train x_val test_data).sc = scalerFit x_train ∧
    (scalingCell x_train x_val test_data).sc =
      (scalingCell x_train x_val2 test2).sc ∧
    (scalingCell x_train x_val test_data).train =
      x_train.map (scalerTransform (scalerFit x_train)) ∧
    (scalingCell x_train x_val test_data).val =
      x_val.map (scalerTransform (scalerFit x_train)) ∧
    (scalingCell x_train x_val test_data).test =
      test_data.map (scalerTransform (scalerFit x_train)) :=
  ⟨rfl, rfl, rfl, rfl, rfl⟩

/-- Claim C4: for every raw table with pairwise distinct rows, the outer
80/20 split followed by the inner 80/20 split of the train part yields
train, validation and test partitions that are pairwise disjoint and whose
sizes sum to the original row count.  The shuffles drawn by the two
`train_test_split` calls enter as `s1` (a permutation of the table) and
`s2` (a permutation of the outer train part). -/
theorem split_partitions_disjoint_and_sum {α : Type} (data s1 s2 : List α)
    (hnd : data.Nodup) (h1 : s1.Perm data)
    (h2 : s2.Perm (train_test_split s1).1) :
    ((prepareSplits s1 s2).1.Disjoint (prepareSplits s1 s2).2.1 ∧
     (prepareSplits s1 s2).1.Disjoint (prepareSplits s1 s2).2.2 ∧
     (prepareSplits s1 s2).2.1.Disjoint (prepareSplits s1 s2).2.2) ∧
    (prepareSplits s1 s2).1.length + (prepareSplits s1 s2).2.1.length +
      (prepareSplits s1 s2).2.2.length = data.length := by
  have hs1 : s1.Nodup := (h1.nodup_iff).mpr hnd
  have hs2 : s2.Nodup := (h2.nodup_iff).mpr (hs1.sublist (List.drop_sublist _ _))
  set k := nTestOfTotal s1.length with hk
  set j := nTestOfTotal s2.length with hj
  have houter : List.Disjoint (s1.drop k) (s1.take k) :=
    (List.disjoint_take_drop hs1 le_rfl).symm
  have hsub : ∀ a, a ∈ s2 → a ∈ s1.drop k := fun a ha => h2.subset ha
  refine ⟨⟨?_, ?_, ?_⟩, ?_⟩
  · exact (List.disjoint_take_drop hs2 le_rfl).symm
  · intro a ha hb
    exact houter (hsub a (List.drop_subset _ _ ha)) hb
  · intro a ha hb
    exact houter (hsub a (List.take_subset _ _ ha)) hb
  · have hinner : (s2.drop j).length + (s2.take j).length = s2.length := by
      have := congrArg List.length (List.take_append_drop j s2)
      simp only [List.length_append] at this
      omega
    have hlen2 : s2.length = (s1.drop k).length := h2.length_eq
    have hout : (s1.drop k).length + (s1.take k).length = s1.length := by
      have := congrArg List.length (List.take_append_drop k s1)
      simp only [List.length_append] at this
      omega
    have hlen1 : s1.length = data.length := h1.length_eq
    show (s2.drop j).length + (s2.take j).length + (s1.take k).length =
      data.length
    omega

/-- Witness for claim C4 at a concrete ten-row table: the three partitions
are pairwise disjoint and their sizes add back up to ten. -/
theorem split_partitions_disjoint_and_sum_witness :
    ((prepareSplits [0, 1, 2, 3, 4, 5, 6, 7, 8, 9]
        (train_test_split [0, 1, 2, 3, 4, 5, 6, 7, 8, 9]).1).1.Disjoint
       (prepareSplits [0, 1, 2, 3, 4, 5, 6, 7, 8, 9]
        (train_test_split [0, 1, 2, 3, 4, 5, 6, 7, 8, 9]).1).2.1 ∧
     (prepareSplits [0, 1, 2, 3, 4, 5, 6, 7, 8, 9]
        (train_test_split [0, 1, 2, 3, 4, 5, 6, 7, 8, 9]).1).1.Disjoint
       (prepareSplits [0, 1, 2, 3, 4, 5, 6, 7, 8, 9]
        (train_test_split [0, 1, 2, 3, 4, 5, 6, 7, 8, 9]).1).2.2 ∧
     (prepareSplits [0, 1, 2, 3, 4, 5, 6, 7, 8, 9]
        (train_test_split [0, 1, 2, 3, 4, 5, 6, 7, 8, 9]).1).2.1.Disjoint
       (prepareSplits [0, 1, 2, 3, 4, 5, 6, 7, 8, 9]
        (train_test_split [0, 1, 2, 3, 4, 5, 6, 7, 8, 9]).1).2.2) ∧
    (prepareSplits [0, 1, 2, 3, 4, 5, 6, 7, 8, 9]
        (train_test_split [0, 1, 2, 3, 4, 5, 6, 7, 8, 9]).1).1.length +
      (prepareSplits [0, 1, 2, 3, 4, 5, 6, 7, 8, 9]
        (train_test_split [0, 1, 2, 3, 4, 5, 6, 7, 8, 9]).1).2.1.length +
      (prepareSplits [0, 1, 2, 3, 4, 5, 6, 7, 8, 9]
        (train_test_split [0, 1, 2, 3, 4, 5, 6, 7, 8, 9]).1).2.2.length =
      ([0, 1, 2, 3, 4, 5, 6, 7, 8, 9] : List ℕ).length :=
  split_partitions_disjoint_and_sum [0, 1, 2, 3, 4, 5, 6, 7, 8, 9]
    [0, 1, 2, 3, 4, 5, 6, 7, 8, 9]
    (train_test_split [0, 1, 2, 3, 4, 5, 6, 7, 8, 9]).1
    (by decide) (List.Perm.refl _) (List.Perm.refl _)

/-- Witness for claim C1 at the source configurations with an identity
trainer: all four run traces are well scoped. -/
theorem run_record_witness :
    WellScoped (mlp_mlflow_run "mlp_base" mlp_params_src train_params_src
      Except.ok (fun _ _ => []) [] []).1 ∧
    WellScoped (fttransformer_mlflow_run "mlp_base" linear_embeddings_params
      train_params_src (params_to_skip_src [] []) Except.ok
      (fun _ _ => []) [] []).1 ∧
    WellScoped (rf_baseline_run (fun _ => []) [] []).1 ∧
    WellScoped (catboost_run (fun _ => []) [] []).1 :=
  run_record_opened_and_sealed_once "mlp_base" mlp_params_src
    train_params_src linear_embeddings_params train_params_src
    (params_to_skip_src [] []) Except.ok (fun _ _ => []) Except.ok
    (fun _ _ => []) (fun _ => []) (fun _ => []) [] []

/-- Witness for claim C2 at concrete columns: the fitted scaler depends on
the train column alone. -/
theorem scaler_fit_train_only_witness :
    (scalingCell [1, 2, 3] [4] [5]).sc = scalerFit [1, 2, 3] ∧
    (scalingCell [1, 2, 3] [4] [5]).sc = (scalingCell [1, 2, 3] [6] [7]).sc ∧
    (scalingCell [1, 2, 3] [4] [5]).train =
      [1, 2, 3].map (scalerTransform (scalerFit [1, 2, 3])) ∧
    (scalingCell [1, 2, 3] [4] [5]).val =
      [4].map (scalerTransform (scalerFit [1, 2, 3])) ∧
    (scalingCell [1, 2, 3] [4] [5]).test =
      [5].map (scalerTransform (scalerFit [1, 2, 3])) :=
  scaler_fit_train_only [1, 2, 3] [4] [6] [5] [7]

/-! ## Early stopping -/

theorem pickBetter_improves {μ : W → ℚ} {best : Option W} {w : W}
    (h : improvesOn μ w best = true) : pickBetter μ best w = some w := by
  cases best with
  | none => rfl
  | some b0 =>
    simp only [improvesOn, decide_eq_true_eq] at h
    simp [pickBetter, h]

theorem pickBetter_stale {μ : W → ℚ} {best : Option W} {w : W}
    (h : improvesOn μ w best = false) : pickBetter μ best w = best := by
  cases best with
  | none => simp [improvesOn] at h
  | some b0 =>
    simp only [improvesOn, decide_eq_false_iff_not] at h
    simp [pickBetter, h]

/-- The early-stopped training loop runs some number `c` of epochs within
the budget and returns the best weights of the epochs it ran. -/
theorem esGo_runs_and_returns_best (μ : W → ℚ) (p : ℕ) :
    ∀ (ws : List W) (best : Option W) (wait e : ℕ),
    ∃ c, c ≤ ws.length ∧ (esGo μ p ws best wait e).1 = e + c ∧
      (esGo μ p ws best wait e).2 = obestBy μ best (ws.take c) := by
  intro ws
  induction ws with
  | nil =>
    intro best wait e
    exact ⟨0, by simp [esGo, obestBy]⟩
  | cons w ws ih =>
    intro best wait e
    by_cases him : improvesOn μ w best = true
    · obtain ⟨c, hc, h1, h2⟩ := ih (some w) 0 (e + 1)
      refine ⟨c + 1, by simpa using Nat.succ_le_succ hc, ?_, ?_⟩
      · simp only [esGo, him, if_true]
        omega
      · simp only [esGo, him, if_true, h2, List.take_succ_cons, obestBy,
          pickBetter_improves him]
    · rw [Bool.not_eq_true] at him
      by_cases hstop : p ≤ wait + 1
      · refine ⟨1, by simp, ?_, ?_⟩
        · simp [esGo, him, hstop]
        · simp [esGo, him, hstop, List.take_succ_cons, obestBy,
            pickBetter_stale him]
      · obtain ⟨c, hc, h1, h2⟩ := ih best (wait + 1) (e + 1)
        refine ⟨c + 1, by simpa using Nat.succ_le_succ hc, ?_, ?_⟩
        · simp only [esGo, him, if_false, hstop, Bool.false_eq_true]
          omega
        · simp only [esGo, him, hstop, List.take_succ_cons, obestBy,
            pickBetter_stale him, Bool.false_eq_true, if_false, h2]

/-- If no remaining epoch improves on the current best, the loop halts
within `patience - wait` further epochs. -/
theorem esGo_halts_no_improvement (μ : W → ℚ) (p : ℕ) :
    ∀ (ws : List W) (b0 : W) (wait e : ℕ), wait < p →
    (∀ w ∈ ws, μ b0 ≤ μ w) →
    (esGo μ p ws (some b0) wait e).1 ≤ e + (p - wait) := by
  intro ws
  induction ws with
  | nil =>
    intro b0 wait e hw _
    simp only [esGo]
    omega
  | cons w ws ih =>
    intro b0 wait e hw hni
    have him : improvesOn μ w (some b0) = false := by
      simp only [improvesOn, decide_eq_false_iff_not, not_lt]
      exact hni w (by simp)
    by_cases hstop : p ≤ wait + 1
    · simp only [esGo, him, Bool.false_eq_true, if_false, hstop, if_true]
      omega
    · simp only [esGo, him, Bool.false_eq_true, if_false, hstop]
      have := ih b0 (wait + 1) (e + 1) (by omega)
        (fun w2 hw2 => hni w2 (by simp [hw2]))
      omega

/-- If the running best over the first `k` epochs is `b0` and no later
epoch beats `b0`, the loop halts within `k + patience` epochs of where it
stands. -/
theorem esGo_halts_within (μ : W → ℚ) (p : ℕ) :
    ∀ (k : ℕ) (ws : List W) (best : Option W) (wait e : ℕ) (b0 : W),
    wait < p → obestBy μ best (ws.take k) = some b0 →
    (∀ w ∈ ws.drop k, μ b0 ≤ μ w) →
    (esGo μ p ws best wait e).1 ≤ e + k + p := by
  intro k
  induction k with
  | zero =>
    intro ws best wait e b0 hw hb hni
    simp only [List.take_zero, obestBy] at hb
    subst hb
    have := esGo_halts_no_improvement μ p ws b0 wait e hw
      (by simpa using hni)
    omega
  | succ k ih =>
    intro ws best wait e b0 hw hb hni
    cases ws with
    | nil =>
      simp only [esGo]
      omega
    | cons w ws =>
      rw [List.take_succ_cons, obestBy] at hb
      rw [List.drop_succ_cons] at hni
      by_cases him : improvesOn μ w best = true
      · rw [pickBetter_improves him] at hb
        have := ih ws (some w) 0 (e + 1) b0 (by omega) hb hni
        simp only [esGo, him, if_true]
        omega
      · rw [Bool.not_eq_true] at him
        rw [pickBetter_stale him] at hb
        by_cases hstop : p ≤ wait + 1
        · simp only [esGo, him, Bool.false_eq_true, if_false, hstop, if_true]
          omega
        · have := ih ws best (wait + 1) (e + 1) b0 (by omega) hb hni
          simp only [esGo, him, Bool.false_eq_true, if_false, hstop]
          omega

theorem pickBetter_spec (μ : W → ℚ) (b : Option W) (w : W) :
    ∃ v, pickBetter μ b w = some v ∧ μ v ≤ μ w ∧
      (∀ b0, b = some b0 → μ v ≤ μ b0) ∧ (v = w ∨ b = some v) := by
  cases b with
  | none => exact ⟨w, rfl, le_rfl, by simp, Or.inl rfl⟩
  | some b0 =>
    by_cases h : μ w < μ b0
    · exact ⟨w, by simp [pickBetter, h], le_rfl,
        fun b1 hb1 => by cases hb1; exact le_of_lt h, Or.inl rfl⟩
    · exact ⟨b0, by simp [pickBetter, h], not_lt.mp h,
        fun b1 hb1 => by cases hb1; exact le_rfl, Or.inr rfl⟩

/-- What `obestBy` returns is a member of the list (or the seed) and its
metric is a lower bound for the metric of every list element and of the
seed. -/
theorem obestBy_is_best (μ : W → ℚ) :
    ∀ (l : List W) (b : Option W) (r : W), obestBy μ b l = some r →
    (r ∈ l ∨ b = some r) ∧ (∀ w ∈ l, μ r ≤ μ w) ∧
      (∀ b0, b = some b0 → μ r ≤ μ b0) := by
  intro l
  induction l with
  | nil =>
    intro b r hb
    simp only [obestBy] at hb
    exact ⟨Or.inr hb, by simp, fun b0 h0 => by rw [h0] at hb; cases hb; exact le_rfl⟩
  | cons w l ih =>
    intro b r hb
    rw [obestBy] at hb
    obtain ⟨v, hv, hvw, hvb, hvmem⟩ := pickBetter_spec μ b w
    obtain ⟨hmem, hle, hseed⟩ := ih (pickBetter μ b w) r hb
    have hrv : μ r ≤ μ v := hseed v hv
    refine ⟨?_, ?_, ?_⟩
    · rcases hmem with hm | hm
      · exact Or.inl (List.mem_cons_of_mem _ hm)
      · rw [hv] at hm
        cases hm
        rcases hvmem with rfl | hb2
        · exact Or.inl (List.mem_cons_self _ _)
        · exact Or.inr hb2
    · intro w2 hw2
      rcases List.mem_cons.mp hw2 with rfl | hm
      · exact le_trans hrv hvw
      · exact hle w2 hm
    · intro b0 hb0
      exact le_trans hrv (hvb b0 hb0)

/-- Claim C3: the spec-modelled early-stopping trainer.  If the monitored
validation metric `μ` stops improving at epoch `k` — the best value over
epochs `0..k` is `μ b0` and no later epoch beats it — then for any
positive `patience` the training loop halts within `patience` epochs after
epoch `k` (at most `k + 1 + patience` epochs run), and the weights it
restores are the best-observed weights over the epochs that ran: they are
among the observed epochs and their monitored metric is a lower bound of
(hence equals the best of) every observed metric — not, in general, the
weights of the final epoch. -/
theorem early_stopping_halts_and_restores_best {W : Type} (μ : W → ℚ)
    (patience k : ℕ) (ws : List W) (b0 : W) (hp : 0 < patience)
    (hbest : obestBy μ none (ws.take (k + 1)) = some b0)
    (hni : ∀ w ∈ ws.drop (k + 1), μ b0 ≤ μ w) :
    (fitEarlyStopping μ patience ws).1 ≤ (k + 1) + patience ∧
    (fitEarlyStopping μ patience ws).2 =
      obestBy μ none (ws.take (fitEarlyStopping μ patience ws).1) ∧
    ∀ r, (fitEarlyStopping μ patience ws).2 = some r →
      r ∈ ws.take (fitEarlyStopping μ patience ws).1 ∧
      ∀ w ∈ ws.take (fitEarlyStopping μ patience ws).1, μ r ≤ μ w := by
  obtain ⟨c, hc, h1, h2⟩ := esGo_runs_and_returns_best μ patience ws none 0 0
  have hhalt := esGo_halts_within μ patience (k + 1) ws none 0 0 b0 hp hbest hni
  have hfe : fitEarlyStopping μ patience ws = esGo μ patience ws none 0 0 :=
    rfl
  refine ⟨by simpa using hhalt, ?_, ?_⟩
  · rw [hfe, h2, h1]
    simp
  · intro r hr
    rw [hfe] at hr ⊢
    rw [h1]
    rw [h2] at hr
    obtain ⟨hmem, hle, _⟩ := obestBy_is_best μ (ws.take c) none r hr
    simp only [Nat.zero_add]
    exact ⟨hmem.resolve_right (by simp), hle⟩

/-- Witness for claim C3: metric sequence 3, 1, 2, 2, 2 with patience 2
stops improving at epoch 1; training halts after 4 ≤ 2 + 2 epochs and the
restored weights are those of epoch 1, with metric 1 = the best seen. -/
theorem early_stopping_witness :
    (fitEarlyStopping (fun x : ℚ => x) 2 [3, 1, 2, 2, 2]).1 ≤ (1 + 1) + 2 ∧
    (fitEarlyStopping (fun x : ℚ => x) 2 [3, 1, 2, 2, 2]).2 =
      obestBy (fun x : ℚ => x) none
        ([3, 1, 2, 2, 2].take
          (fitEarlyStopping (fun x : ℚ => x) 2 [3, 1, 2, 2, 2]).1) ∧
    ∀ r, (fitEarlyStopping (fun x : ℚ => x) 2 [3, 1, 2, 2, 2]).2 = some r →
      r ∈ [3, 1, 2, 2, 2].take
        (fitEarlyStopping (fun x : ℚ => x) 2 [3, 1, 2, 2, 2]).1 ∧
      ∀ w ∈ [3, 1, 2, 2, 2].take
        (fitEarlyStopping (fun x : ℚ => x) 2 [3, 1, 2, 2, 2]).1,
        r ≤ w :=
  early_stopping_halts_and_restores_best (fun x : ℚ => x) 2 1 [3, 1, 2, 2, 2] 1
    (by decide) (by decide) (by decide)

/-! ## Model builder -/

theorem requireKeys_ok (d : Config) :
    ∀ ks : List String, (∀ k ∈ ks, (d.lookup k).isSome) →
    requireKeys d ks = Except.ok () := by
  intro ks
  induction ks with
  | nil => intro _; rfl
  | cons k ks ih =>
    intro h
    obtain ⟨v, hv⟩ := Option.isSome_iff_exists.mp (h k (by simp))
    simp only [requireKeys, dictGet, hv]
    exact ih (fun k2 hk2 => h k2 (by simp [hk2]))

theorem requireKeys_error (d : Config) :
    ∀ ks : List String, (∃ k ∈ ks, d.lookup k = none) →
    ∃ msg, requireKeys d ks = Except.error msg := by
  intro ks
  induction ks with
  | nil => rintro ⟨k, hk, _⟩; exact absurd hk (List.not_mem_nil k)
  | cons k ks ih =>
    rintro ⟨k2, hk2, hnone⟩
    rcases hl : d.lookup k with _ | v
    · exact ⟨"KeyError: " ++ k, by simp [requireKeys, dictGet, hl]⟩
    · rcases List.mem_cons.mp hk2 with rfl | hmem
      · rw [hl] at hnone; cases hnone
      · obtain ⟨msg, hmsg⟩ := ih ⟨k2, hmem, hnone⟩
        refine ⟨msg, ?_⟩
        simp [requireKeys, dictGet, hl, hmsg]

/-- Claim C5: the model builders are total over well-formed
configurations and fail fast on malformed ones.  `build_mlp` returns an
untrained model for every configuration binding all its required keys and
raises a `KeyError` for every configuration missing one; the
FTTransformer builder returns a model for every configuration binding all
encoder keys (with a bin count whenever the embedding type is a binning
one) and fails for every configuration missing a required key.  In the
embedding the builders are pure (`Except`-valued) functions, so failure
produces no partly built model and no side effect. -/
theorem model_builder_total_and_fails_fast
    (good bad kwlogG kwskipG kwlogB kwskipB : Config)
    (hgood : ∀ k ∈ mlpRequiredKeys, (good.lookup k).isSome)
    (hbad : ∃ k ∈ mlpRequiredKeys, bad.lookup k = none)
    (hftgood : ∀ k ∈ ftRequiredKeys, ((kwlogG ++ kwskipG).lookup k).isSome)
    (hftbins : ∀ et,
      (kwlogG ++ kwskipG).lookup "numerical_embedding_type" = some et →
      (et = Value.str "periodic" ∨ et = Value.str "ple") →
      ((kwlogG ++ kwskipG).lookup "numerical_bins").isSome)
    (hftbad : ∃ k ∈ ftRequiredKeys, (kwlogB ++ kwskipB).lookup k = none) :
    (∃ m, build_mlp good = Except.ok m) ∧
    (∃ msg, build_mlp bad = Except.error msg) ∧
    (∃ ft, build_fttransformer kwlogG kwskipG 1 "relu" = Except.ok ft) ∧
    (∃ msg, build_fttransformer kwlogB kwskipB 1 "relu" = Except.error msg) := by
  refine ⟨?_, ?_, ?_, ?_⟩
  · obtain ⟨v1, hv1⟩ := Option.isSome_iff_exists.mp
      (hgood "layer1_size" (by simp [mlpRequiredKeys]))
    obtain ⟨v2, hv2⟩ := Option.isSome_iff_exists.mp
      (hgood "activation" (by simp [mlpRequiredKeys]))
    obtain ⟨v3, hv3⟩ := Option.isSome_iff_exists.mp
      (hgood "dropout_rate" (by simp [mlpRequiredKeys]))
    obtain ⟨v4, hv4⟩ := Option.isSome_iff_exists.mp
      (hgood "layer2_size" (by simp [mlpRequiredKeys]))
    exact ⟨⟨[Layer.dense v1 v2, Layer.dropout v3, Layer.dense v4 v2,
              Layer.dropout v3, Layer.dense (Value.int 1) (Value.str "relu")]⟩,
      by simp [build_mlp, dictGet, hv1, hv2, hv3, hv4]⟩
  · rcases hbad with ⟨k, hkmem, hknone⟩
    rcases h1 : bad.lookup "layer1_size" with _ | v1
    · exact ⟨"KeyError: layer1_size", by simp [build_mlp, dictGet, h1]⟩
    rcases h2 : bad.lookup "activation" with _ | v2
    · exact ⟨"KeyError: activation", by simp [build_mlp, dictGet, h1, h2]⟩
    rcases h3 : bad.lookup "dropout_rate" with _ | v3
    · exact ⟨"KeyError: dropout_rate",
        by simp [build_mlp, dictGet, h1, h2, h3]⟩
    rcases h4 : bad.lookup "layer2_size" with _ | v4
    · exact ⟨"KeyError: layer2_size",
        by simp [build_mlp, dictGet, h1, h2, h3, h4]⟩
    exfalso
    simp only [mlpRequiredKeys, List.mem_cons, List.not_mem_nil,
      or_false] at hkmem
    rcases hkmem with rfl | rfl | rfl | rfl <;> simp_all
  · have hrk : requireKeys (kwlogG ++ kwskipG) ftRequiredKeys =
        Except.ok () := requireKeys_ok _ _ hftgood
    obtain ⟨et, het⟩ := Option.isSome_iff_exists.mp
      (hftgood "numerical_embedding_type" (by simp [ftRequiredKeys]))
    by_cases hcond : et = Value.str "periodic" ∨ et = Value.str "ple"
    · obtain ⟨b, hb⟩ := Option.isSome_iff_exists.mp (hftbins et het hcond)
      rcases hcond with rfl | rfl
      · exact ⟨⟨⟨kwlogG ++ kwskipG⟩, 1, "relu"⟩, by
          simp [build_fttransformer, mkFTEncoder, hrk, dictGet, het, hb]⟩
      · exact ⟨⟨⟨kwlogG ++ kwskipG⟩, 1, "relu"⟩, by
          simp [build_fttransformer, mkFTEncoder, hrk, dictGet, het, hb]⟩
    · exact ⟨⟨⟨kwlogG ++ kwskipG⟩, 1, "relu"⟩, by
        simp [build_fttransformer, mkFTEncoder, hrk, dictGet, het, hcond]⟩
  · obtain ⟨msg, hmsg⟩ := requireKeys_error _ _ hftbad
    exact ⟨msg, by simp [build_fttransformer, mkFTEncoder, hmsg]⟩

/-- The `periodic_params_to_log` dict of the notebook (the embedding type
that requires a bin count, together with its bin count). -/
def periodic_params_src : Config :=
  [("numerical_features", Value.strList NUMERIC_FEATURES),
   ("categorical_features", Value.strList []),
   ("numerical_embedding_type", Value.str "periodic"),
   ("numerical_bins", Value.int 128),
   ("embedding_dim", Value.int 64), ("depth", Value.int 3),
   ("heads", Value.int 6), ("attn_dropout", Value.num (3 / 10)),
   ("ff_dropout", Value.num (3 / 10)),
   ("explainable", Value.bool true)]

/-- Witness for claim C5 at the configurations of the notebook: the
source `mlp_params` builds, the empty dict is rejected, the periodic
FTTransformer configuration (with its build-only arrays) builds, and the
empty configuration pair is rejected. -/
theorem model_builder_witness :
    (∃ m, build_mlp mlp_params_src = Except.ok m) ∧
    (∃ msg, build_mlp [] = Except.error msg) ∧
    (∃ ft, build_fttransformer periodic_params_src
      (params_to_skip_src [] []) 1 "relu" = Except.ok ft) ∧
    (∃ msg, build_fttransformer [] [] 1 "relu" = Except.error msg) :=
  model_builder_total_and_fails_fast mlp_params_src [] periodic_params_src
    (params_to_skip_src [] []) [] []
    (by decide) (by decide) (by decide)
    (fun _ _ _ => by decide) (by decide)

/-! ## Trace contents -/

theorem loggedMetrics_append (l1 l2 : List Event) :
    loggedMetrics (l1 ++ l2) = loggedMetrics l1 ++ loggedMetrics l2 :=
  List.filterMap_append l1 l2 _

theorem loggedParams_append (l1 l2 : List Event) :
    loggedParams (l1 ++ l2) = loggedParams l1 ++ loggedParams l2 :=
  List.filterMap_append l1 l2 _

theorem loggedMetrics_cons_start (s : String) (t : List Event) :
    loggedMetrics (Event.start s :: t) = loggedMetrics t := rfl

theorem loggedMetrics_cons_setTag (k v : String) (t : List Event) :
    loggedMetrics (Event.setTag k v :: t) = loggedMetrics t := rfl

theorem loggedMetrics_cons_logParam (k : String) (v : Value) (t : List Event) :
    loggedMetrics (Event.logParam k v :: t) = loggedMetrics t := rfl

theorem loggedMetrics_cons_logMetric (n : String) (v : RVal) (t : List Event) :
    loggedMetrics (Event.logMetric n v :: t) = (n, v) :: loggedMetrics t := rfl

theorem loggedMetrics_cons_logArtifact (p : String) (t : List Event) :
    loggedMetrics (Event.logArtifact p :: t) = loggedMetrics t := rfl

theorem loggedMetrics_cons_seal (t : List Event) :
    loggedMetrics (Event.seal :: t) = loggedMetrics t := rfl

theorem loggedMetrics_nil : loggedMetrics [] = [] := rfl

theorem loggedParams_cons_start (s : String) (t : List Event) :
    loggedParams (Event.start s :: t) = loggedParams t := rfl

theorem loggedParams_cons_setTag (k v : String) (t : List Event) :
    loggedParams (Event.setTag k v :: t) = loggedParams t := rfl

theorem loggedParams_cons_logParam (k : String) (v : Value) (t : List Event) :
    loggedParams (Event.logParam k v :: t) = (k, v) :: loggedParams t := rfl

theorem loggedParams_cons_logMetric (n : String) (v : RVal) (t : List Event) :
    loggedParams (Event.logMetric n v :: t) = loggedParams t := rfl

theorem loggedParams_cons_logArtifact (p : String) (t : List Event) :
    loggedParams (Event.logArtifact p :: t) = loggedParams t := rfl

theorem loggedParams_cons_seal (t : List Event) :
    loggedParams (Event.seal :: t) = loggedParams t := rfl

theorem loggedParams_nil : loggedParams [] = [] := rfl

theorem loggedMetrics_paramEvents (d : Config) :
    loggedMetrics (paramEvents d) = [] := by
  induction d with
  | nil => rfl
  | cons kv d ih =>
    simp only [paramEvents, List.map_cons] at ih ⊢
    rw [loggedMetrics_cons_logParam, ih]

theorem loggedParams_paramEvents (d : Config) :
    loggedParams (paramEvents d) = d := by
  induction d with
  | nil => rfl
  | cons kv d ih =>
    simp only [paramEvents, List.map_cons] at ih ⊢
    rw [loggedParams_cons_logParam, ih]

/-- Claim C6: on every completed run of the harness — the MLP run, the
FTTransformer run, the random-forest baseline and the CatBoost run — the
one and only metric recorded to the tracking store is `test_rmse`, and its
value is exactly the root-mean-squared error between the fitted model
predictions on the held-out test partition and the true test labels. -/
theorem recorded_metric_is_test_rmse (runName : String)
    (mlp_params train_params encoder_params tparams params_to_skip : Config)
    (mtrainer : MLPModel → Except String MLPModel)
    (mpredict : MLPModel → List Row → List ℚ)
    (ftrainer : FTModel → Except String FTModel)
    (fpredict : FTModel → List Row → List ℚ)
    (rfPredict catbPredict : List Row → List ℚ)
    (test : List Row) (y_test : List ℚ)
    (mlp fittedM : MLPModel) (ft fittedF : FTModel)
    (hbm : build_mlp mlp_params = Except.ok mlp)
    (htm : mtrainer mlp = Except.ok fittedM)
    (hbf : build_fttransformer encoder_params params_to_skip 1 "relu" =
      Except.ok ft)
    (htf : ftrainer ft = Except.ok fittedF) :
    loggedMetrics (mlp_mlflow_run runName mlp_params train_params mtrainer
        mpredict test y_test).1 =
      [("test_rmse", root_mean_squared_error y_test (mpredict fittedM test))] ∧
    loggedMetrics (fttransformer_mlflow_run runName encoder_params tparams
        params_to_skip ftrainer fpredict test y_test).1 =
      [("test_rmse", root_mean_squared_error y_test (fpredict fittedF test))] ∧
    loggedMetrics (rf_baseline_run rfPredict test y_test).1 =
      [("test_rmse", root_mean_squared_error y_test (rfPredict test))] ∧
    loggedMetrics (catboost_run catbPredict test y_test).1 =
      [("test_rmse", root_mean_squared_error y_test (catbPredict test))] := by
  refine ⟨?_, ?_, ?_, ?_⟩
  · simp [mlp_mlflow_run, withRun, hbm, htm, loggedMetrics_append,
      loggedMetrics_cons_start, loggedMetrics_cons_setTag,
      loggedMetrics_cons_logMetric, loggedMetrics_cons_logArtifact,
      loggedMetrics_cons_seal, loggedMetrics_nil, loggedMetrics_paramEvents]
  · simp [fttransformer_mlflow_run, withRun, hbf, htf, loggedMetrics_append,
      loggedMetrics_cons_start, loggedMetrics_cons_setTag,
      loggedMetrics_cons_logMetric, loggedMetrics_cons_logArtifact,
      loggedMetrics_cons_seal, loggedMetrics_nil, loggedMetrics_paramEvents]
  · simp [rf_baseline_run, withRun, loggedMetrics_append,
      loggedMetrics_cons_start, loggedMetrics_cons_setTag,
      loggedMetrics_cons_logMetric, loggedMetrics_cons_logArtifact,
      loggedMetrics_cons_seal, loggedMetrics_nil, loggedMetrics_paramEvents]
  · simp [catboost_run, withRun, loggedMetrics_append,
      loggedMetrics_cons_start, loggedMetrics_cons_setTag,
      loggedMetrics_cons_logMetric, loggedMetrics_cons_logArtifact,
      loggedMetrics_cons_seal, loggedMetrics_nil]

/-- Witness for claim C6 with the source MLP configuration, an identity
trainer, a constant-zero predictor and a two-row test partition. -/
theorem recorded_metric_witness :
    loggedMetrics (mlp_mlflow_run "mlp_base" mlp_params_src train_params_src
        Except.ok (fun _ _ => [0, 0]) [[1], [2]] [1, 2]).1 =
      [("test_rmse", root_mean_squared_error [1, 2] [0, 0])] ∧
    loggedMetrics (fttransformer_mlflow_run "linear" linear_embeddings_params
        train_params_src (params_to_skip_src [] []) Except.ok
        (fun _ _ => [0, 0]) [[1], [2]] [1, 2]).1 =
      [("test_rmse", root_mean_squared_error [1, 2] [0, 0])] ∧
    loggedMetrics (rf_baseline_run (fun _ => [0, 0]) [[1], [2]] [1, 2]).1 =
      [("test_rmse", root_mean_squared_error [1, 2] [0, 0])] ∧
    loggedMetrics (catboost_run (fun _ => [0, 0]) [[1], [2]] [1, 2]).1 =
      [("test_rmse", root_mean_squared_error [1, 2] [0, 0])] :=
  recorded_metric_is_test_rmse "mlp_base" mlp_params_src
    train_params_src linear_embeddings_params train_params_src
    (params_to_skip_src [] []) Except.ok (fun _ _ => [0, 0]) Except.ok
    (fun _ _ => [0, 0]) (fun _ => [0, 0]) (fun _ => [0, 0]) [[1], [2]]
    [1, 2]
    ⟨[Layer.dense (Value.int 512) (Value.str "relu"),
      Layer.dropout (Value.num (3 / 10)),
      Layer.dense (Value.int 128) (Value.str "relu"),
      Layer.dropout (Value.num (3 / 10)),
      Layer.dense (Value.int 1) (Value.str "relu")]⟩
    ⟨[Layer.dense (Value.int 512) (Value.str "relu"),
      Layer.dropout (Value.num (3 / 10)),
      Layer.dense (Value.int 128) (Value.str "relu"),
      Layer.dropout (Value.num (3 / 10)),
      Layer.dense (Value.int 1) (Value.str "relu")]⟩
    ⟨⟨linear_embeddings_params ++ params_to_skip_src [] []⟩, 1, "relu"⟩
    ⟨⟨linear_embeddings_params ++ params_to_skip_src [] []⟩, 1, "relu"⟩
    rfl rfl rfl rfl

/-- Claim C7: on every run and every exit path, the parameters recorded to
the tracking store are exactly the loggable configuration: the
FTTransformer run records precisely `encoder_params ++ train_params` — so
every loggable parameter is recorded and no key occurring only in the
build-only `params_to_skip` dict (for example `numerical_data`) is ever
recorded — the MLP run records precisely its two dicts, the baseline run
its two hyperparameters, and the CatBoost run (which passes only library
defaults) records none. -/
theorem logged_params_are_loggable_subset (runName : String)
    (mlp_params train_params encoder_params tparams params_to_skip : Config)
    (mtrainer : MLPModel → Except String MLPModel)
    (mpredict : MLPModel → List Row → List ℚ)
    (ftrainer : FTModel → Except String FTModel)
    (fpredict : FTModel → List Row → List ℚ)
    (rfPredict catbPredict : List Row → List ℚ)
    (test : List Row) (y_test : List ℚ) :
    loggedParams (fttransformer_mlflow_run runName encoder_params tparams
        params_to_skip ftrainer fpredict test y_test).1 =
      encoder_params ++ tparams ∧
    (∀ k ∈ params_to_skip.map Prod.fst,
      k ∉ (encoder_params ++ tparams).map Prod.fst →
      k ∉ (loggedParams (fttransformer_mlflow_run runName encoder_params
        tparams params_to_skip ftrainer fpredict test y_test).1).map
        Prod.fst) ∧
    loggedParams (mlp_mlflow_run runName mlp_params train_params mtrainer
        mpredict test y_test).1 = mlp_params ++ train_params ∧
    loggedParams (rf_baseline_run rfPredict test y_test).1 =
      [("n_estimators", Value.int 100), ("max_depth", Value.int 20)] ∧
    loggedParams (catboost_run catbPredict test y_test).1 = [] := by
  have hft : loggedParams (fttransformer_mlflow_run runName encoder_params
      tparams params_to_skip ftrainer fpredict test y_test).1 =
      encoder_params ++ tparams := by
    rcases hb : build_fttransformer encoder_params params_to_skip 1 "relu"
      with msg | ft
    · simp [fttransformer_mlflow_run, withRun, hb, loggedParams_append,
        loggedParams_cons_start, loggedParams_cons_setTag,
        loggedParams_cons_logMetric, loggedParams_cons_logArtifact,
        loggedParams_cons_seal, loggedParams_nil, loggedParams_paramEvents]
    · rcases ht : ftrainer ft with msg | fitted
      · simp [fttransformer_mlflow_run, withRun, hb, ht, loggedParams_append,
          loggedParams_cons_start, loggedParams_cons_setTag,
          loggedParams_cons_logMetric, loggedParams_cons_logArtifact,
          loggedParams_cons_seal, loggedParams_nil, loggedParams_paramEvents]
      · simp [fttransformer_mlflow_run, withRun, hb, ht, loggedParams_append,
          loggedParams_cons_start, loggedParams_cons_setTag,
          loggedParams_cons_logMetric, loggedParams_cons_logArtifact,
          loggedParams_cons_seal, loggedParams_nil, loggedParams_paramEvents]
  refine ⟨hft, ?_, ?_, ?_, ?_⟩
  · intro k _ hnot
    rw [hft]
    exact hnot
  · rcases hb : build_mlp mlp_params with msg | mlp
    · simp [mlp_mlflow_run, withRun, hb, loggedParams_append,
        loggedParams_cons_start, loggedParams_cons_setTag,
        loggedParams_cons_logMetric, loggedParams_cons_logArtifact,
        loggedParams_cons_seal, loggedParams_nil, loggedParams_paramEvents]
    · rcases ht : mtrainer mlp with msg | fitted
      · simp [mlp_mlflow_run, withRun, hb, ht, loggedParams_append,
          loggedParams_cons_start, loggedParams_cons_setTag,
          loggedParams_cons_logMetric, loggedParams_cons_logArtifact,
          loggedParams_cons_seal, loggedParams_nil, loggedParams_paramEvents]
      · simp [mlp_mlflow_run, withRun, hb, ht, loggedParams_append,
          loggedParams_cons_start, loggedParams_cons_setTag,
          loggedParams_cons_logMetric, loggedParams_cons_logArtifact,
          loggedParams_cons_seal, loggedParams_nil, loggedParams_paramEvents]
  · simp [rf_baseline_run, withRun, loggedParams_append,
      loggedParams_cons_start, loggedParams_cons_setTag,
      loggedParams_cons_logMetric, loggedParams_cons_logArtifact,
      loggedParams_cons_seal, loggedParams_nil, loggedParams_paramEvents]
  · simp [catboost_run, withRun, loggedParams_append,
      loggedParams_cons_start, loggedParams_cons_setTag,
      loggedParams_cons_logMetric, loggedParams_cons_logArtifact,
      loggedParams_cons_seal, loggedParams_nil]

/-- Witness for claim C7 at the source configurations: the linear
FTTransformer run records exactly the encoder and training dicts, the
build-only keys (`numerical_data`, `categorical_data`, `y`) are not
recorded, and the other runs record their loggable dicts. -/
theorem logged_params_witness :
    loggedParams (fttransformer_mlflow_run "linear" linear_embeddings_params
        train_params_src (params_to_skip_src [] []) Except.ok
        (fun _ _ => []) [] []).1 =
      linear_embeddings_params ++ train_params_src ∧
    (∀ k ∈ (params_to_skip_src [] []).map Prod.fst,
      k ∉ (linear_embeddings_params ++ train_params_src).map Prod.fst →
      k ∉ (loggedParams (fttransformer_mlflow_run "linear"
        linear_embeddings_params train_params_src (params_to_skip_src [] [])
        Except.ok (fun _ _ => []) [] []).1).map Prod.fst) ∧
    loggedParams (mlp_mlflow_run "linear" mlp_params_src train_params_src
        Except.ok (fun _ _ => []) [] []).1 =
      mlp_params_src ++ train_params_src ∧
    loggedParams (rf_baseline_run (fun _ => []) [] []).1 =
      [("n_estimators", Value.int 100), ("max_depth", Value.int 20)] ∧
    loggedParams (catboost_run (fun _ => []) [] []).1 = [] :=
  logged_params_are_loggable_subset "linear" mlp_params_src train_params_src
    linear_embeddings_params train_params_src (params_to_skip_src [] [])
    Except.ok (fun _ _ => []) Except.ok (fun _ _ => []) (fun _ => [])
    (fun _ => []) [] []

theorem dictGet_congr {p1 p2 : Config} {k : String}
    (h : p1.lookup k = p2.lookup k) : dictGet p1 k = dictGet p2 k := by
  simp [dictGet, h]

/-- Claim C10: `build_mlp` never reads the "layer3_size" key, so any two
configurations that agree on every other key build the same model — the
built architecture does not depend on "layer3_size" — even though the
source `mlp_params` dict carries that key and the MLP run logs it to the
tracking store as a run parameter (for every training outcome). -/
theorem build_mlp_independent_of_layer3 (p1 p2 : Config)
    (h : ∀ k, k ≠ "layer3_size" → p1.lookup k = p2.lookup k)
    (mtrainer : MLPModel → Except String MLPModel)
    (mpredict : MLPModel → List Row → List ℚ)
    (test : List Row) (y_test : List ℚ) :
    build_mlp p1 = build_mlp p2 ∧
    Event.logParam "layer3_size" (Value.int 64) ∈
      (mlp_mlflow_run "mlp_base" mlp_params_src train_params_src mtrainer
        mpredict test y_test).1 := by
  constructor
  · have e1 := dictGet_congr (h "layer1_size" (by decide))
    have e2 := dictGet_congr (h "activation" (by decide))
    have e3 := dictGet_congr (h "dropout_rate" (by decide))
    have e4 := dictGet_congr (h "layer2_size" (by decide))
    simp only [build_mlp, e1, e2, e3, e4]
  · have hmem0 : Event.logParam "layer3_size" (Value.int 64) ∈
        paramEvents mlp_params_src := by decide
    have hb : build_mlp mlp_params_src = Except.ok
        ⟨[Layer.dense (Value.int 512) (Value.str "relu"),
          Layer.dropout (Value.num (3 / 10)),
          Layer.dense (Value.int 128) (Value.str "relu"),
          Layer.dropout (Value.num (3 / 10)),
          Layer.dense (Value.int 1) (Value.str "relu")]⟩ := rfl
    rcases ht : mtrainer ⟨[Layer.dense (Value.int 512) (Value.str "relu"),
          Layer.dropout (Value.num (3 / 10)),
          Layer.dense (Value.int 128) (Value.str "relu"),
          Layer.dropout (Value.num (3 / 10)),
          Layer.dense (Value.int 1) (Value.str "relu")]⟩ with msg | fitted <;>
      simp [mlp_mlflow_run, withRun, hb, ht, hmem0]

/-- Witness for claim C10: the source `mlp_params` and the same dict with
"layer3_size" rebound to 32 build the same MLP, and "layer3_size" is
logged by the run. -/
theorem build_mlp_independent_of_layer3_witness :
    build_mlp mlp_params_src = build_mlp
      [("layer1_size", Value.int 512), ("layer2_size", Value.int 128),
       ("layer3_size", Value.int 32), ("dropout_rate", Value.num (3 / 10)),
       ("activation", Value.str "relu")] ∧
    Event.logParam "layer3_size" (Value.int 64) ∈
      (mlp_mlflow_run "mlp_base" mlp_params_src train_params_src Except.ok
        (fun _ _ => []) [] []).1 :=
  build_mlp_independent_of_layer3 mlp_params_src
    [("layer1_size", Value.int 512), ("layer2_size", Value.int 128),
     ("layer3_size", Value.int 32), ("dropout_rate", Value.num (3 / 10)),
     ("activation", Value.str "relu")]
    (by
      intro k hk
      have hk3 : (k == "layer3_size") = false := by
        simpa using hk
      simp [mlp_params_src, List.lookup, hk3])
    Except.ok (fun _ _ => []) [] []

theorem relu_nonneg (x : ℚ) : 0 ≤ relu x := le_max_right x 0

theorem applyActivation_relu (z : ℚ) :
    applyActivation (Value.str "relu") z = relu z := if_pos rfl

/-- Claim C9: every prediction of a built MLP and of every built
FTTransformer variant is non-negative, because the output layer of both
architectures applies a `relu` activation: for every configuration the
builder accepts, every choice of layer weights and every input, no
predicted value is below zero. -/
theorem predictions_nonnegative (params : Config) (m : MLPModel)
    (hb : build_mlp params = Except.ok m)
    (wb1 wb2 wb3 : List (List ℚ) × List ℚ) (x : Row)
    (pl ps : Config) (ft : FTModel)
    (hbf : build_fttransformer pl ps 1 "relu" = Except.ok ft)
    (encOut w : List ℚ) (b : ℚ) :
    (∀ y ∈ forwardLayers m.layers [wb1, wb2, wb3] x, 0 ≤ y) ∧
    0 ≤ ftPredictOne ft encOut w b := by
  constructor
  · rcases h1 : params.lookup "layer1_size" with _ | v1
    · simp [build_mlp, dictGet, h1] at hb
    rcases h2 : params.lookup "activation" with _ | v2
    · simp [build_mlp, dictGet, h1, h2] at hb
    rcases h3 : params.lookup "dropout_rate" with _ | v3
    · simp [build_mlp, dictGet, h1, h2, h3] at hb
    rcases h4 : params.lookup "layer2_size" with _ | v4
    · simp [build_mlp, dictGet, h1, h2, h3, h4] at hb
    rw [build_mlp] at hb
    simp only [dictGet, h1, h2, h3, h4] at hb
    injection hb with hm
    subst hm
    intro y hy
    simp only [forwardLayers] at hy
    rcases List.mem_map.mp hy with ⟨wb, _, rfl⟩
    rw [applyActivation_relu]
    exact relu_nonneg _
  · rcases he : mkFTEncoder (pl ++ ps) with msg | enc
    · simp [build_fttransformer, he] at hbf
    rw [build_fttransformer] at hbf
    simp only [he] at hbf
    injection hbf with hft
    subst hft
    rw [ftPredictOne]
    rw [applyActivation_relu]
    exact relu_nonneg _

/-- Witness for claim C9: the source MLP configuration with concrete
weights and a concrete input, and the periodic FTTransformer
configuration with a concrete encoder output purposely driven negative
before the output activation. -/
theorem predictions_nonnegative_witness :
    (∀ y ∈ forwardLayers
        (MLPModel.layers ⟨[Layer.dense (Value.int 512) (Value.str "relu"),
          Layer.dropout (Value.num (3 / 10)),
          Layer.dense (Value.int 128) (Value.str "relu"),
          Layer.dropout (Value.num (3 / 10)),
          Layer.dense (Value.int 1) (Value.str "relu")]⟩)
        [([[1]], [0]), ([[1]], [0]), ([[1]], [-5])] [1], 0 ≤ y) ∧
    0 ≤ ftPredictOne
        ⟨⟨periodic_params_src ++ params_to_skip_src [] []⟩, 1, "relu"⟩
        [1] [-3] (-7) :=
  predictions_nonnegative mlp_params_src
    ⟨[Layer.dense (Value.int 512) (Value.str "relu"),
      Layer.dropout (Value.num (3 / 10)),
      Layer.dense (Value.int 128) (Value.str "relu"),
      Layer.dropout (Value.num (3 / 10)),
      Layer.dense (Value.int 1) (Value.str "relu")]⟩
    rfl ([[1]], [0]) ([[1]], [0]) ([[1]], [-5]) [1]
    periodic_params_src (params_to_skip_src [] [])
    ⟨⟨periodic_params_src ++ params_to_skip_src [] []⟩, 1, "relu"⟩
    rfl [1] [-3] (-7)

/-! ## Artifact store roundtrip -/

theorem decNums_encoded (v : List ℚ) :
    ∀ ts : List Tok, decNums v.length (v.map Tok.num ++ ts) = some (v, ts) := by
  induction v with
  | nil => intro ts; rfl
  | cons q v ih =>
    intro ts
    simp only [List.map_cons, List.length_cons, List.cons_append,
      List.append_eq, decNums, ih ts]
    rfl

theorem decVec_encoded (v : List ℚ) (ts : List Tok) :
    decVec (encVec v ++ ts) = some (v, ts) := by
  simp only [encVec, List.cons_append, decVec, decNums_encoded]

theorem decRows_encoded (m : List (List ℚ)) :
    ∀ ts : List Tok,
    decRows m.length ((m.map encVec).flatten ++ ts) = some (m, ts) := by
  induction m with
  | nil => intro ts; rfl
  | cons v m ih =>
    intro ts
    simp only [List.map_cons, List.length_cons, List.flatten_cons,
      List.append_assoc, decRows, decVec_encoded, ih ts]

theorem decMat_encoded (m : List (List ℚ)) (ts : List Tok) :
    decMat (encMat m ++ ts) = some (m, ts) := by
  simp only [encMat, List.cons_append, decMat, decRows_encoded]

theorem decDense_encoded (wb : List (List ℚ) × List ℚ) (ts : List Tok) :
    decDense (encDense wb ++ ts) = some (wb, ts) := by
  simp only [encDense, List.append_assoc, decDense, decMat_encoded,
    decVec_encoded]

/-- Claim C8: reloading a stored model artifact recovers exactly the
stored fitted model, so the reloaded model predicts on the test partition
exactly what the stored model predicts, and predicting twice on the same
input partition yields identical outputs — the prediction function of a
(reloaded) model is a pure function of the model and its input. -/
theorem reload_model_and_predict_idempotent (tm : TrainedMLP)
    (part : List Row) :
    load_model (save_model tm) = some tm ∧
    (∀ m2, load_model (save_model tm) = some m2 →
      trainedPredict m2 part = trainedPredict tm part ∧
      trainedPredict m2 part = trainedPredict m2 part) := by
  have hload : load_model (save_model tm) = some tm := by
    show load_model (Tok.str tm.hiddenAct ::
      (encDense tm.w1 ++ encDense tm.w2 ++ encDense tm.w3)) = some tm
    have hsplit : encDense tm.w1 ++ encDense tm.w2 ++ encDense tm.w3 =
        encDense tm.w1 ++ (encDense tm.w2 ++ (encDense tm.w3 ++ [])) := by
      simp
    rw [load_model, hsplit]
    simp only [decDense_encoded]
    simp
  refine ⟨hload, fun m2 hm2 => ?_⟩
  rw [hload] at hm2
  injection hm2 with hm
  subst hm
  exact ⟨rfl, rfl⟩

/-- Witness for claim C8 at a concrete fitted model and a two-row test
partition: the reloaded artifact is the stored model and its predictions
coincide with the stored model predictions. -/
theorem reload_model_witness :
    load_model (save_model ⟨"relu", ([[2]], [1]), ([[1]], [0]),
      ([[1, 1]], [-1])⟩) =
      some ⟨"relu", ([[2]], [1]), ([[1]], [0]), ([[1, 1]], [-1])⟩ ∧
    (∀ m2, load_model (save_model ⟨"relu", ([[2]], [1]), ([[1]], [0]),
        ([[1, 1]], [-1])⟩) = some m2 →
      trainedPredict m2 [[1], [3]] =
        trainedPredict ⟨"relu", ([[2]], [1]), ([[1]], [0]),
          ([[1, 1]], [-1])⟩ [[1], [3]] ∧
      trainedPredict m2 [[1], [3]] = trainedPredict m2 [[1], [3]]) :=
  reload_model_and_predict_idempotent
    ⟨"relu", ([[2]], [1]), ([[1]], [0]), ([[1, 1]], [-1])⟩ [[1], [3]]

end MlflowHarness
